import Mathlib

/-
Verification development for the pyrestful REST dispatch engine
(src/pyrestful/rest.py).  The Python source is shallowly embedded:

* an annotated method becomes an `Operation` record, built by
  `buildOperation`/`config` exactly as the `config` decorator does
  (regex scans of the path template, defaulted produced media type,
  registration-time media-type validation);
* the per-request dispatch `RestHandler._exe` becomes `exe`, a fold over
  the handler's operations threading an explicit tornado response state
  (`ResponseState`) and recording every handler invocation;
* Python exceptions become explicit `Except`/`Option` error values
  (`PyExc`): a `tornado.web.HTTPError` carries its status, every other
  exception (ValueError from a failed conversion, IndexError from list
  indexing, TypeError from an arity mismatch, RuntimeError from writing
  to a finished response) is collapsed to `PyExc.other`, exactly the
  granularity the source's `except` clauses distinguish.

The modules `pyrestful.types` and `pyrestful.mediatypes` are imported by
the source but are not part of the given sources; they are modelled from
the specification and marked as such in their doc comments.
-/

set_option autoImplicit false

/-- PyExc distinguishes the only two kinds of Python exception the
dispatcher's `except` clauses treat differently: a `tornado.web.HTTPError`
carrying a status code, and every other exception. -/
inductive PyExc where
  | httpError (status : Nat)
  | other
  deriving DecidableEq

/-- PType is the set of semantic parameter types of the Type Coercion
Utility: integer, float, boolean, string. -/
inductive PType where
  | int
  | float
  | bool
  | str
  deriving DecidableEq

/-- PValue is a coerced parameter value as passed to a handler method:
a string, an integer, a float (kept as its raw text), a boolean, or the
Python `None` placeholder. -/
inductive PValue where
  | pstr (s : String)
  | pint (n : Int)
  | pfloat (s : String)
  | pbool (b : Bool)
  | pnone
  deriving DecidableEq

/-- JValue is a leaf JSON value used in handler return values. -/
inductive JValue where
  | jstr (s : String)
  | jnum (n : Int)
  deriving DecidableEq

/-- RetVal is the shape of a handler method's return value as the
response-negotiation branch of `_exe` discriminates it: Python `None`,
a `dict`, a `list`, an `xml.dom.minidom.Document` (kept as its `toxml`
rendering), or anything else. -/
inductive RetVal where
  | null
  | dict (m : List (String × JValue))
  | list (l : List JValue)
  | xmlDoc (x : String)
  | other
  deriving DecidableEq

def RetVal.isDict : RetVal → Bool
  | .dict _ => true
  | _ => false

def RetVal.isList : RetVal → Bool
  | .list _ => true
  | _ => false

def RetVal.isXmlDoc : RetVal → Bool
  | .xmlDoc _ => true
  | _ => false

/-- Modelled from the spec: the repository's `pyrestful.mediatypes`
module is not among the given sources; the spec fixes the three allowed
produced media types as `application/json`, `application/xml`,
`text/xml`, with JSON the default. -/
def APPLICATION_JSON : String := "application/json"

/-- Modelled from the spec: see `APPLICATION_JSON`. -/
def APPLICATION_XML : String := "application/xml"

/-- Modelled from the spec: see `APPLICATION_JSON`. -/
def TEXT_XML : String := "text/xml"

/-- Python `str.split(sep)` on a single separator character: splits into
the list of (possibly empty) chunks between separator occurrences.
`"".split(sep)` is `[""]` and `"/a".split("/")` is `["", "a"]`. -/
def pySplitAux (sep : Char) : List Char → List Char → List (List Char)
  | [], acc => [acc.reverse]
  | c :: cs, acc =>
    if c = sep then acc.reverse :: pySplitAux sep cs []
    else pySplitAux sep cs (c :: acc)

def pySplit (sep : Char) (s : String) : List String :=
  (pySplitAux sep s.data []).map String.mk

/-- Python regex `\w` on the ASCII templates used here: letters, digits
and underscore. -/
def wordChar (c : Char) : Bool := c.isAlphanum || c == '_'

/-- State machine computing `re.findall(r"(?<=m)\w+", s)`: the maximal
runs of word characters whose preceding character is the marker `m`.
`acc` holds finished matches, `cur` the reversed current run (if a match
is open), `prev` the previously scanned character. -/
def findAllAux (marker : Char) :
    List (List Char) → Option (List Char) → Option Char → List Char → List (List Char)
  | acc, some r, _, [] => acc ++ [r.reverse]
  | acc, Option.none, _, [] => acc
  | acc, some r, _, c :: cs =>
    if wordChar c then findAllAux marker acc (some (c :: r)) (some c) cs
    else findAllAux marker (acc ++ [r.reverse]) Option.none (some c) cs
  | acc, Option.none, prev, c :: cs =>
    if prev == some marker && wordChar c then findAllAux marker acc (some [c]) (some c) cs
    else findAllAux marker acc Option.none (some c) cs

/-- All `\w+` runs of `s` immediately preceded by `marker`, left to
right, as produced by `re.findall` in the `config` decorator. -/
def findAllAfter (marker : Char) (s : String) : List String :=
  (findAllAux marker [] Option.none Option.none s.data).map String.mk

def digitsVal (l : List Char) : Nat :=
  l.foldl (fun acc c => acc * 10 + (c.toNat - 48)) 0

def isDigitList (l : List Char) : Bool := l.all Char.isDigit

/-- Integer literal parse (Python `int(raw)` on the inputs the engine
sees: an optional minus sign followed by decimal digits). -/
def parseInt (s : String) : Option Int :=
  match s.data with
  | [] => Option.none
  | '-' :: ds =>
    if !ds.isEmpty && isDigitList ds then some (-(digitsVal ds : Int)) else Option.none
  | ds =>
    if isDigitList ds then some ((digitsVal ds : Int)) else Option.none

/-- Float literal shape check used by the modelled float coercion. -/
def isFloatLit (s : String) : Bool :=
  match s.data with
  | [] => false
  | l =>
    let l := if l.head? = some '-' then l.tail else l
    !l.isEmpty && l.count '.' ≤ 1 && l.all (fun c => c.isDigit || c == '.')

/-- Modelled from the spec: the repository's `pyrestful.types` module
(the Type Coercion Utility, spec section 4.5) is not among the given
sources.  Per the spec, `convert` turns a raw string into the requested
semantic type — integer parse, float parse, boolean parse by canonical
truthy/falsy tokens, identity for string — and a raw value that cannot
be parsed raises a conversion error, which propagates as the generic
internal error of the dispatcher. -/
def convert (raw : String) (t : PType) : Except PyExc PValue :=
  match t with
  | .str => .ok (.pstr raw)
  | .int =>
    match parseInt raw with
    | some n => .ok (.pint n)
    | Option.none => .error .other
  | .float =>
    if isFloatLit raw then .ok (.pfloat raw) else .error .other
  | .bool =>
    if raw == "true" || raw == "True" then .ok (.pbool true)
    else if raw == "false" || raw == "False" then .ok (.pbool false)
    else .error .other

/-- JSON rendering of a leaf value (model of `json.dumps`). -/
def renderJValue : JValue → String
  | .jstr s => "\"" ++ s ++ "\""
  | .jnum n => toString n

/-- JSON object rendering of a Python dict (model of `json.dumps` /
tornado's dict serialization, with `json.dumps` default separators). -/
def jsonOfDict (m : List (String × JValue)) : String :=
  "\x7b" ++ String.intercalate ", "
    (m.map (fun kv => "\"" ++ kv.fst ++ "\": " ++ renderJValue kv.snd)) ++ "\x7d"

/-- JSON array rendering of a Python list (model of `json.dumps`). -/
def jsonOfList (l : List JValue) : String :=
  "[" ++ String.intercalate ", " (l.map renderJValue) ++ "]"

/-- Operation is the metadata record the `config` decorator attaches to
an annotated method (its `operation._xxx` attributes), together with the
wrapped method itself (`behavior`).  Field names follow the source. -/
structure Operation where
  name : String
  func_params : List String
  types_list : List (Option PType)
  service_name : List String
  service_params : List String
  method : String
  produces : String
  consumes : Option String
  query_params : List String
  path : String
  is_coroutine : Bool
  behavior : List PValue → Except PyExc RetVal

/-- Request is the slice of a tornado request the dispatcher reads:
verb, path, and the query-arguments mapping from a name to its list of
raw values.  `RestHandler.get/post/put/delete` pass `_exe` the verb that
tornado routed on, so it always equals `request.method`; the model keeps
the single `method` field. -/
structure Request where
  method : String
  path : String
  arguments : List (String × List String)

/-- The attribute-building part of the `config` decorator
(src/pyrestful/rest.py lines 74-88): regex scans of the path template
and the defaulting of `_produces` (JSON when `_produces` is absent) and
of `_types` (`types or [str]*len(func_params)`, where both a missing and
an empty list fall back to all-string). -/
def buildOperation (fname : String) (func_params : List String)
    (behavior : List PValue → Except PyExc RetVal) (method : String) (path : String)
    (producesArg consumesArg : Option String) (typesArg : Option (List (Option PType)))
    (coroutine : Bool) : Operation :=
  { name := fname
    func_params := func_params
    types_list :=
      match typesArg with
      | some ts =>
        if ts.isEmpty then List.replicate func_params.length (some PType.str) else ts
      | Option.none => List.replicate func_params.length (some PType.str)
    service_name := findAllAfter '/' path
    service_params := findAllAfter '{' path
    method := method
    produces := producesArg.getD APPLICATION_JSON
    consumes := consumesArg
    query_params := findAllAfter '<' path
    path := path
    is_coroutine := coroutine
    behavior := behavior }

/-- The `config` decorator (src/pyrestful/rest.py lines 53-93): builds
the operation record and raises `PyRestfulException` at class-definition
time when the resolved produced media type is not one of the three
allowed values. -/
def config (fname : String) (func_params : List String)
    (behavior : List PValue → Except PyExc RetVal) (method : String) (path : String)
    (producesArg consumesArg : Option String) (typesArg : Option (List (Option PType)))
    (coroutine : Bool) : Except String Operation :=
  let op := buildOperation fname func_params behavior method path
    producesArg consumesArg typesArg coroutine
  if op.produces ∈ [APPLICATION_JSON, APPLICATION_XML, TEXT_XML] then .ok op
  else .error ("The media type used do not exist : " ++ fname)

/-- ResponseState models the tornado response machinery of a
`RequestHandler` as the dispatcher touches it: status code, headers,
accumulated body, and whether `finish()` has been called. -/
structure ResponseState where
  status : Nat
  headers : List (String × String)
  body : String
  finished : Bool
  deriving DecidableEq

def initRS : ResponseState := { status := 200, headers := [], body := "", finished := false }

/-- Tornado `set_header`: replaces an existing header, else appends. -/
def setHeaderList (hs : List (String × String)) (k v : String) : List (String × String) :=
  if hs.any (fun kv => kv.fst == k) then
    hs.map (fun kv => if kv.fst == k then (k, v) else kv)
  else hs ++ [(k, v)]

def rsSetHeader (s : ResponseState) (k v : String) : ResponseState :=
  { s with headers := setHeaderList s.headers k v }

/-- Tornado `write`: appends to the output buffer; raises a
RuntimeError when the response is already finished. -/
def rsWrite (s : ResponseState) (chunk : String) : Except PyExc ResponseState :=
  if s.finished then .error .other else .ok { s with body := s.body ++ chunk }

/-- Tornado `finish`: marks the response complete; raises when called
twice. -/
def rsFinish (s : ResponseState) : Except PyExc ResponseState :=
  if s.finished then .error .other else .ok { s with finished := true }

/-- Tornado `clear`: resets headers, buffer and status code (to 200),
but not the finished flag. -/
def rsClear (s : ResponseState) : ResponseState :=
  { s with status := 200, headers := [], body := "" }

def rsSetStatus (s : ResponseState) (n : Nat) : ResponseState := { s with status := n }

/-- `RestHandler.gen_http_error` (lines 248-253): clear, set the status,
write a minimal HTML body, finish.  Returns the state after the
mutations that succeeded, plus the exception if the `write` (and hence
the `finish`) could not run because the response was already finished. -/
def gen_http_error (s : ResponseState) (status : Nat) (msg : String) :
    ResponseState × Option PyExc :=
  let s1 := rsSetStatus (rsClear s) status
  if s1.finished then (s1, some PyExc.other)
  else
    let msgHtml := "<html><body>" ++ msg ++ "</body></html>"
    let s2 := { s1 with body := s1.body ++ msgHtml, finished := true }
    (s2, Option.none)

/-- The response state produced by a successful `gen_http_error` run
from a not-yet-finished response. -/
def errorResponseState (status : Nat) (msg : String) : ResponseState :=
  { status := status, headers := [],
    body := "<html><body>" ++ msg ++ "</body></html>", finished := true }

/-- `RestHandler._find_params_value_of_url` (lines 205-215): split the
request path on `/`, keep the segments that are neither empty nor one of
the descriptor's literal service tokens.  The trailing `for v in values`
loop of the source only re-appends every element (list items are never
`None`), so it is the identity and is folded away here. -/
def find_params_value_of_url (services : List String) (url : String) : List String :=
  (pySplit '/' url).filter (fun item => !services.contains item && item != "")

def lookupArg (arguments : List (String × List String)) (p : String) :
    Option (List String) :=
  (arguments.find? (fun kv => kv.fst == p)).map (fun kv => kv.snd)

/-- Inner loop of `_find_params_value_of_arguments`: for each wanted
parameter name, the first raw value under that name, `None` when the
name is absent; indexing `v[0]` on an empty value list raises. -/
def find_args_go (arguments : List (String × List String)) :
    List String → Except PyExc (List (Option String))
  | [] => .ok []
  | p :: ps =>
    match lookupArg arguments p with
    | some [] => .error .other
    | some (v :: _) => do
      let rest ← find_args_go arguments ps
      .ok (some v :: rest)
    | Option.none => do
      let rest ← find_args_go arguments ps
      .ok (Option.none :: rest)

/-- `RestHandler._find_params_value_of_arguments` (lines 217-231): when
the query-arguments mapping is non-empty, look up each function
parameter that is not a path variable; when it is empty but the
descriptor declares query variables, produce positional `None`
placeholders (Python list repetition truncates a negative count to an
empty list, as `List.replicate` with `Nat` subtraction does). -/
def find_params_value_of_arguments (op : Operation)
    (arguments : List (String × List String)) : Except PyExc (List (Option String)) :=
  if arguments.length > 0 then
    find_args_go arguments
      (op.func_params.filter (fun item => !op.service_params.contains item))
  else if arguments.length = 0 && op.query_params.length > 0 then
    .ok (List.replicate (op.func_params.length - op.service_params.length) Option.none)
  else .ok []

/-- Inner loop of `_convert_params_values`: the index `i` advances on
every value (also on `None` placeholders); on a non-`None` value,
`params_types[i]` is read (IndexError past the end) and the value is
coerced with the Type Coercion Utility. -/
def convert_go (params_types : List PType) :
    Nat → List (Option String) → Except PyExc (List PValue)
  | _, [] => .ok []
  | i, some v :: rest =>
    match params_types.get? i with
    | Option.none => .error .other
    | some t => do
      let pv ← convert v t
      let tl ← convert_go params_types (i + 1) rest
      .ok (pv :: tl)
  | i, Option.none :: rest => do
    let tl ← convert_go params_types (i + 1) rest
    .ok (PValue.pnone :: tl)

/-- `RestHandler._convert_params_values` (lines 233-246). -/
def convert_params_values (values_list : List (Option String))
    (params_types : List PType) : Except PyExc (List PValue) :=
  convert_go params_types 0 values_list

/-- The per-operation `params_types` computed in `_exe` (lines 165-166):
`operation._types or [str]*len(service_params)`, then the positional
merge `map(lambda x,y: y if x is None else x, params_types,
[str]*len(service_params))`.  Under Python 3 `map` stops at the shortest
argument, so the merged list is truncated to the number of path
variables; `List.zipWith` has exactly that semantics. -/
def effParamsTypes (op : Operation) : List PType :=
  let pt := if op.types_list.isEmpty then
    List.replicate op.service_params.length (some PType.str)
  else op.types_list
  List.zipWith (fun x y => x.getD y) pt (List.replicate op.service_params.length PType.str)

/-- The match condition of the candidate scan (line 174):
`operation._method == self.request.method and service_name ==
services_from_request and len(service_params) + len(service_name) ==
len(services_and_params)`, with `services_from_request` the literal
tokens present in the split request path and `services_and_params` the
non-empty split segments. -/
def matchesOp (op : Operation) (req : Request) : Bool :=
  let path := pySplit '/' req.path
  let services_and_params := path.filter (fun x => x != "")
  let services_from_request := op.service_name.filter (fun x => path.contains x)
  op.method == req.method && op.service_name == services_from_request &&
    (op.service_params.length + op.service_name.length == services_and_params.length)

/-- Calling `operation(*p_values)`: Python raises a TypeError before the
body runs when the positional argument count does not meet the
function's parameter count; otherwise the wrapped method runs. -/
def invokeOp (op : Operation) (args : List PValue) : Except PyExc RetVal :=
  if args.length = op.func_params.length then op.behavior args else .error .other

/-- Lines 176-179 of `_exe`: parameter extraction, coercion, and the
handler call, in source order.  Returns the invocation record (the call
attempt with its argument values, when the call was reached) and the
outcome. -/
def runOpCall (req : Request) (op : Operation) :
    List (String × List PValue) × Except PyExc RetVal :=
  match find_params_value_of_arguments op req.arguments with
  | .error e => ([], .error e)
  | .ok argvals =>
    let params_values :=
      (find_params_value_of_url op.service_name req.path).map some ++ argvals
    match convert_params_values params_values (effParamsTypes op) with
    | .error e => ([], .error e)
    | .ok p_values => ([(op.name, p_values)], invokeOp op p_values)

def writeFinish (rs : ResponseState) (chunk : String) : ResponseState × Option PyExc :=
  match rsWrite rs chunk with
  | .error e => (rs, some e)
  | .ok rs2 =>
    match rsFinish rs2 with
    | .error e => (rs2, some e)
    | .ok rs3 => (rs3, Option.none)

/-- Response negotiation for a non-`None` handler result (lines
184-197): set the Content-Type header to the produced media type, then
the if/elif chain over (produces, result shape); the final else prints
an error and runs `gen_http_error(500, ...)` — still inside the `try`.
Returns the mutated state plus the exception if any write raised. -/
def negotiate (op : Operation) (r : RetVal) (rs0 : ResponseState) :
    ResponseState × Option PyExc :=
  let rs := rsSetHeader rs0 "Content-Type" op.produces
  if op.produces == APPLICATION_JSON && r.isDict then
    writeFinish rs (jsonOfDict (match r with | .dict m => m | _ => []))
  else if op.produces == APPLICATION_JSON && r.isList then
    writeFinish rs (jsonOfList (match r with | .list l => l | _ => []))
  else if (op.produces == APPLICATION_XML || op.produces == TEXT_XML) && r.isXmlDoc then
    writeFinish rs (match r with | .xmlDoc x => x | _ => "")
  else
    gen_http_error rs 500 ("Internal Server Error : response is not " ++ op.produces ++ " document")

/-- LoopState is the state threaded through the candidate scan: the
response state plus the record of handler invocations performed. -/
structure LoopState where
  rs : ResponseState
  invoked : List (String × List PValue)
  deriving DecidableEq

def initLS : LoopState := { rs := initRS, invoked := [] }

/-- StepResult is what one iteration of the candidate scan does to the
control flow: `ret` is the `return` statement (stop, no exception),
`cont` falls through to the next candidate, `escalate` is an exception
propagating out of `_exe`. -/
inductive StepResult where
  | ret (ls : LoopState)
  | cont (ls : LoopState)
  | escalate (ls : LoopState) (e : PyExc)
  deriving DecidableEq

/-- The `except` clauses of `_exe` (lines 198-203): an `HTTPError` is
translated via `gen_http_error(e.status_code, "HTTP Error")` and the
scan falls through; any other exception is translated via
`gen_http_error(500, "Internal Server Error")` and then re-raised.  If
`gen_http_error` itself raises (write on a finished response), that
exception propagates instead. -/
def handleExc (ls : LoopState) (e : PyExc) : StepResult :=
  match e with
  | .httpError st =>
    match gen_http_error ls.rs st "HTTP Error" with
    | (rs, Option.none) => .cont { ls with rs := rs }
    | (rs, some e2) => .escalate { ls with rs := rs } e2
  | .other =>
    match gen_http_error ls.rs 500 "Internal Server Error" with
    | (rs, Option.none) => .escalate { ls with rs := rs } PyExc.other
    | (rs, some e2) => .escalate { ls with rs := rs } e2

/-- The whole `try`/`except` body run for one matching candidate (lines
175-203): extraction, coercion, invocation; on a `None` result the
`return`; otherwise response negotiation; exceptions routed to the
`except` clauses. -/
def handleOne (req : Request) (op : Operation) (ls0 : LoopState) : StepResult :=
  let pair := runOpCall req op
  let ls : LoopState := { ls0 with invoked := ls0.invoked ++ pair.fst }
  match pair.snd with
  | .error e => handleExc ls e
  | .ok RetVal.null => .ret ls
  | .ok r =>
    match negotiate op r ls.rs with
    | (rs, Option.none) => .cont { ls with rs := rs }
    | (rs, some e) => handleExc { ls with rs := rs } e

/-- DispatchOutcome is the observable effect of one `_exe` run: the
final response state, the handler invocations performed, and the
exception (if any) that propagated out of `_exe` to tornado. -/
structure DispatchOutcome where
  rs : ResponseState
  invoked : List (String × List PValue)
  escalated : Option PyExc
  deriving DecidableEq

/-- The candidate scan of `_exe` (lines 161-203): iterate the
operations in scan order; a non-matching candidate is skipped; a
matching one runs `handleOne`, whose result either stops the scan
(`ret`/`escalate`) or lets it continue. -/
def dispatchLoop (req : Request) : List Operation → LoopState → DispatchOutcome
  | [], ls => { rs := ls.rs, invoked := ls.invoked, escalated := Option.none }
  | op :: rest, ls =>
    if matchesOp op req then
      match handleOne req op ls with
      | .ret ls2 => { rs := ls2.rs, invoked := ls2.invoked, escalated := Option.none }
      | .cont ls2 => dispatchLoop req rest ls2
      | .escalate ls2 e => { rs := ls2.rs, invoked := ls2.invoked, escalated := some e }
    else dispatchLoop req rest ls

/-- `RestHandler._exe` (lines 144-203): the verb gate — when the request
verb is not among the verbs declared by the handler's operations, an
`HTTPError(405)` is raised before any candidate is examined — followed
by the candidate scan. -/
def exe (ops : List Operation) (req : Request) : DispatchOutcome :=
  if (ops.map (fun op => op.method)).contains req.method then
    dispatchLoop req ops initLS
  else { rs := initRS, invoked := [], escalated := some (PyExc.httpError 405) }

/-- Non-empty segments of a request path, as the spec describes them:
split on `/` and drop empty segments. -/
def nonEmptySegments (p : String) : List String :=
  (pySplit '/' p).filter (fun x => x != "")

/-- The match predicate transcribed from the specification's own words
(spec section 4.4 step 2), to be compared with the source's `matchesOp`:
verb equality, membership of every declared literal token among the
non-empty request path segments, and the segment-count equation. -/
def specMatch (op : Operation) (req : Request) : Prop :=
  op.method = req.method ∧
  (∀ t ∈ op.service_name, t ∈ nonEmptySegments req.path) ∧
  op.service_params.length + op.service_name.length = (nonEmptySegments req.path).length

/-- The supported (producesType, result shape) combinations of the
response-negotiation if/elif chain. -/
def supportedCombo (produces : String) (r : RetVal) : Bool :=
  (produces == APPLICATION_JSON && r.isDict) ||
  (produces == APPLICATION_JSON && r.isList) ||
  ((produces == APPLICATION_XML || produces == TEXT_XML) && r.isXmlDoc)

/-- Handler body that returns no value (Python `None`). -/
def bNull : List PValue → Except PyExc RetVal := fun _ => .ok RetVal.null

/-- Operation for the spec's round-trip scenario: `GET /users/{id}`
with declared parameter types `[int]`. -/
def usersOp : Operation :=
  buildOperation "getUser" ["id"] bNull "GET" "/users/{id}"
    Option.none Option.none (some [some PType.int]) false

def reqUsers42 : Request := { method := "GET", path := "/users/42", arguments := [] }

def reqUsersUsers : Request := { method := "GET", path := "/users/users", arguments := [] }

/-- Operation for the query-variable scenario: `GET /svc?<q>` with one
query-bound variable `q` of declared type integer and no path
variables. -/
def qOp : Operation :=
  buildOperation "getq" ["q"] bNull "GET" "/svc?<q>"
    Option.none Option.none (some [some PType.int]) false

def reqSvcNoQuery : Request := { method := "GET", path := "/svc", arguments := [] }

def reqSvcQ5 : Request := { method := "GET", path := "/svc", arguments := [("q", ["5"])] }

/-- Handler body returning a JSON-serializable dict. -/
def echoBehavior : List PValue → Except PyExc RetVal :=
  fun _ => .ok (RetVal.dict [("a", JValue.jnum 1)])

/-- Two operations with identical verb and template, so that both match
the same request; their scan order is h1 then h2. -/
def echoOp1 : Operation :=
  buildOperation "h1" ["x"] echoBehavior "GET" "/echo/{x}"
    Option.none Option.none Option.none false

def echoOp2 : Operation :=
  buildOperation "h2" ["x"] echoBehavior "GET" "/echo/{x}"
    Option.none Option.none Option.none false

def reqEcho : Request := { method := "GET", path := "/echo/1", arguments := [] }

/-- Two operations on the same literal path differing only by verb. -/
def thingGet : Operation :=
  buildOperation "tg" [] bNull "GET" "/thing" Option.none Option.none Option.none false

def thingPost : Operation :=
  buildOperation "tp" [] bNull "POST" "/thing" Option.none Option.none Option.none false

def reqPutThing : Request := { method := "PUT", path := "/thing", arguments := [] }

def reqGetOther : Request := { method := "GET", path := "/otherpath", arguments := [] }

/-- Operation producing JSON whose handler returns the mapping
`\x7b"id": 1\x7d`. -/
def dictOp : Operation :=
  buildOperation "dj" [] (fun _ => .ok (RetVal.dict [("id", JValue.jnum 1)])) "GET" "/d"
    Option.none Option.none Option.none false

def reqD : Request := { method := "GET", path := "/d", arguments := [] }

/-- Operation producing JSON whose handler returns an XML document — an
unsupported (producesType, shape) combination. -/
def mmOp : Operation :=
  buildOperation "mm" [] (fun _ => .ok (RetVal.xmlDoc "<a/>")) "GET" "/m"
    Option.none Option.none Option.none false

def reqM : Request := { method := "GET", path := "/m", arguments := [] }

/-- Operation whose handler raises `HTTPError(404)`. -/
def errOp : Operation :=
  buildOperation "eo" [] (fun _ => .error (PyExc.httpError 404)) "GET" "/e"
    Option.none Option.none Option.none false

/-- Operation whose handler raises a non-HTTP exception. -/
def excOp : Operation :=
  buildOperation "xo" [] (fun _ => .error PyExc.other) "GET" "/x"
    Option.none Option.none Option.none false

def reqE : Request := { method := "GET", path := "/e", arguments := [] }

def reqX : Request := { method := "GET", path := "/x", arguments := [] }

theorem matchesOp_method {op : Operation} {req : Request}
    (h : matchesOp op req = true) : op.method = req.method := by
  unfold matchesOp at h
  simp only [Bool.and_eq_true, beq_iff_eq] at h
  exact h.1.1

theorem dispatchLoop_no_match (req : Request) (ops : List Operation) (ls : LoopState)
    (h : ∀ op ∈ ops, matchesOp op req = false) :
    dispatchLoop req ops ls =
      { rs := ls.rs, invoked := ls.invoked, escalated := Option.none } := by
  induction ops with
  | nil => rfl
  | cons op rest ih =>
    have h1 := h op (List.mem_cons_self op rest)
    simp only [dispatchLoop, h1, Bool.false_eq_true, if_false]
    exact ih (fun o ho => h o (List.mem_cons_of_mem op ho))

theorem dispatchLoop_append_no_match (req : Request) (pre rest : List Operation)
    (ls : LoopState) (h : ∀ p ∈ pre, matchesOp p req = false) :
    dispatchLoop req (pre ++ rest) ls = dispatchLoop req rest ls := by
  induction pre with
  | nil => rfl
  | cons op pre2 ih =>
    have h1 := h op (List.mem_cons_self op pre2)
    simp only [List.cons_append, dispatchLoop, h1, Bool.false_eq_true, if_false]
    exact ih (fun o ho => h o (List.mem_cons_of_mem op ho))

theorem gen_http_error_unfinished (s : ResponseState) (st : Nat) (msg : String)
    (h : s.finished = false) :
    gen_http_error s st msg = (errorResponseState st msg, Option.none) := by
  unfold gen_http_error rsSetStatus rsClear errorResponseState
  simp [h]

theorem handleExc_http (ls : LoopState) (st : Nat) (h : ls.rs.finished = false) :
    handleExc ls (PyExc.httpError st) =
      StepResult.cont { ls with rs := errorResponseState st "HTTP Error" } := by
  simp only [handleExc]
  rw [gen_http_error_unfinished ls.rs st _ h]

theorem handleExc_other (ls : LoopState) (h : ls.rs.finished = false) :
    handleExc ls PyExc.other =
      StepResult.escalate { ls with rs := errorResponseState 500 "Internal Server Error" }
        PyExc.other := by
  simp only [handleExc]
  rw [gen_http_error_unfinished ls.rs 500 _ h]

theorem handleOne_error (req : Request) (op : Operation) (ls0 : LoopState)
    (inv : List (String × List PValue)) (e : PyExc)
    (h : runOpCall req op = (inv, Except.error e)) :
    handleOne req op ls0 = handleExc { ls0 with invoked := ls0.invoked ++ inv } e := by
  unfold handleOne
  rw [h]

theorem exe_single_match (op : Operation) (req : Request)
    (hm : matchesOp op req = true) :
    exe [op] req =
      match handleOne req op initLS with
      | .ret ls2 => { rs := ls2.rs, invoked := ls2.invoked, escalated := Option.none }
      | .cont ls2 => { rs := ls2.rs, invoked := ls2.invoked, escalated := Option.none }
      | .escalate ls2 e => { rs := ls2.rs, invoked := ls2.invoked, escalated := some e } := by
  have hmm := matchesOp_method hm
  unfold exe
  have hc : (([op].map (fun o => o.method)).contains req.method) = true := by
    simp [hmm]
  rw [hc]
  simp only [if_true]
  simp only [dispatchLoop, hm, if_true]

/-- C1: a descriptor matches a request iff (a) its verb equals the
request verb, (b) every literal path token it declares is present among
the request's non-empty path segments (membership, not positional), and
(c) the count of declared path variables plus declared literal tokens
equals the count of non-empty request path segments.  The hypothesis —
every declared literal token is non-empty — holds for every descriptor
the `config` decorator builds, because `re.findall(r"(?<=/)\w+", path)`
only yields non-empty word runs. -/
theorem c1_match_characterization (op : Operation) (req : Request)
    (h : ∀ t ∈ op.service_name, t ≠ "") :
    matchesOp op req = true ↔ specMatch op req := by
  unfold matchesOp specMatch nonEmptySegments
  simp only [Bool.and_eq_true, beq_iff_eq]
  constructor
  · rintro ⟨⟨hm, hfil⟩, hlen⟩
    refine ⟨hm, ?_, hlen⟩
    intro t ht
    have hmem : (pySplit '/' req.path).contains t = true :=
      List.filter_eq_self.mp hfil.symm t ht
    rw [List.mem_filter]
    exact ⟨by simpa using hmem, by simpa using h t ht⟩
  · rintro ⟨hm, hmem, hlen⟩
    refine ⟨⟨hm, ?_⟩, hlen⟩
    symm
    rw [List.filter_eq_self]
    intro t ht
    have := hmem t ht
    rw [List.mem_filter] at this
    simpa using this.1

/-- C1 witness: the characterization applied to the `GET /users/{id}`
descriptor and a `GET /users/42` request. -/
theorem c1_match_characterization_witness :
    (∀ t ∈ usersOp.service_name, t ≠ "") ∧
    (matchesOp usersOp reqUsers42 = true ↔ specMatch usersOp reqUsers42) :=
  ⟨by decide, c1_match_characterization usersOp reqUsers42 (by decide)⟩

/-- C5: round-trip of compilation and dispatch for template
`/users/{id}`: a GET request to `/users/42` with no query string has
path-derived value list `["42"]`, and with declared type integer the
handler is invoked with the coerced integer `42`. -/
theorem c5_round_trip :
    find_params_value_of_url usersOp.service_name reqUsers42.path = ["42"] ∧
    (exe [usersOp] reqUsers42).invoked = [("getUser", [PValue.pint 42])] ∧
    (exe [usersOp] reqUsers42).escalated = Option.none := by decide

/-- C10: for template `/users/{id}`, a `GET /users/users` request whose
variable-position segment equals the literal token still matches, but
value extraction drops that segment too, so fewer values than declared
path variables are produced; the handler call is attempted with no
positional argument and the request ends in the internal-error path
(500 written and finished, failure escalated). -/
theorem c10_literal_equal_segment :
    matchesOp usersOp reqUsersUsers = true ∧
    find_params_value_of_url usersOp.service_name reqUsersUsers.path = [] ∧
    (find_params_value_of_url usersOp.service_name reqUsersUsers.path).length <
      usersOp.service_params.length ∧
    exe [usersOp] reqUsersUsers =
      { rs := errorResponseState 500 "Internal Server Error",
        invoked := [("getUser", [])], escalated := some PyExc.other } := by decide

/-- C3 evaluation: for the `GET /svc?<q>` operation with declared types
`[int]` — with no query string the handler is invoked with the `None`
placeholder for `q` (first two conjuncts, as the claim states); but with
`q=5` supplied, the descriptor matches and yet the handler is never
invoked: the dispatch-time merge of `_types` truncates the declared
types to the number of path variables (zero), coercion of `"5"` indexes
an empty type list, and the request ends as a 500 with the failure
escalated, instead of invoking the handler with the coerced integer 5. -/
theorem c3_query_coercion_eval :
    (exe [qOp] reqSvcNoQuery).invoked = [("getq", [PValue.pnone])] ∧
    (exe [qOp] reqSvcNoQuery).escalated = Option.none ∧
    matchesOp qOp reqSvcQ5 = true ∧
    effParamsTypes qOp = [] ∧
    (exe [qOp] reqSvcQ5).invoked = [] ∧
    (exe [qOp] reqSvcQ5).rs = errorResponseState 500 "Internal Server Error" ∧
    (exe [qOp] reqSvcQ5).escalated = some PyExc.other := by decide

/-- C2 counterexample: two operations with the same verb and template,
scanned as h1 then h2, on a request both match: after the first match is
handled (response written and finished), the scan continues and the
second operation is invoked as well — refuting the claim that no later
operation in the scan order is invoked. -/
theorem c2_counterexample :
    matchesOp echoOp1 reqEcho = true ∧
    (exe [echoOp1, echoOp2] reqEcho).invoked.map Prod.fst = ["h1", "h2"] ∧
    ¬ ((exe [echoOp1, echoOp2] reqEcho).invoked.map Prod.fst = ["h1"]) := by decide

/-- C2 amended: when the first matching descriptor's handling ends in
the handler returning no value (Python `None`), the dispatcher returns
immediately: no later descriptor is examined and nothing more happens.
When the handler returns a writable value, the scan instead continues
past the handled match (see the counterexample). -/
theorem c2_amended_return_stops_scan (req : Request) (pre post : List Operation)
    (op : Operation) (ls2 : LoopState)
    (hpre : ∀ p ∈ pre, matchesOp p req = false)
    (hm : matchesOp op req = true)
    (hh : handleOne req op initLS = StepResult.ret ls2) :
    exe (pre ++ op :: post) req =
      { rs := ls2.rs, invoked := ls2.invoked, escalated := Option.none } := by
  unfold exe
  have hc : (((pre ++ op :: post).map (fun o => o.method)).contains req.method) = true := by
    have hmm := matchesOp_method hm
    have : req.method ∈ (pre ++ op :: post).map (fun o => o.method) := by
      rw [← hmm]
      exact List.mem_map_of_mem _ (by simp)
    simpa using this
  rw [hc]
  simp only [if_true]
  rw [dispatchLoop_append_no_match req pre _ _ hpre]
  simp only [dispatchLoop, hm, if_true, hh]

/-- C2 amended witness: a single matching operation whose handler
returns `None`; the dispatcher stops right after it. -/
theorem c2_amended_witness :
    exe [usersOp] reqUsers42 =
      { rs := initRS, invoked := [("getUser", [PValue.pint 42])],
        escalated := Option.none } :=
  c2_amended_return_stops_scan reqUsers42 [] [] usersOp
    { rs := initRS, invoked := [("getUser", [PValue.pint 42])] }
    (by decide) (by decide) (by decide)

/-- C6: when the request verb is absent from the set of verbs declared
by the handler's operations, `_exe` raises `HTTPError(405)` before any
candidate is matched or invoked: the outcome carries the 405 escalation,
no invocation, and a pristine response state. -/
theorem c6_verb_gate (ops : List Operation) (req : Request)
    (h : req.method ∉ ops.map (fun op => op.method)) :
    exe ops req =
      { rs := initRS, invoked := [], escalated := some (PyExc.httpError 405) } := by
  unfold exe
  have hc : ((ops.map (fun o => o.method)).contains req.method) = false := by
    simpa using h
  rw [hc]
  simp

/-- C6 witness: two operations on the same literal path, one GET and
one POST; a PUT to that path yields the 405 outcome and no match. -/
theorem c6_verb_gate_witness :
    (reqPutThing.method ∉ [thingGet, thingPost].map (fun op => op.method)) ∧
    exe [thingGet, thingPost] reqPutThing =
      { rs := initRS, invoked := [], escalated := some (PyExc.httpError 405) } :=
  ⟨by decide, c6_verb_gate [thingGet, thingPost] reqPutThing (by decide)⟩

/-- C9: when the request verb is among the declared verbs but no
descriptor satisfies the match predicate, the dispatcher writes no
response at all: the response state is untouched, nothing is invoked,
and no exception propagates — the request is silently dropped. -/
theorem c9_no_match_silent_drop (ops : List Operation) (req : Request)
    (hv : req.method ∈ ops.map (fun op => op.method))
    (hnm : ∀ op ∈ ops, matchesOp op req = false) :
    exe ops req = { rs := initRS, invoked := [], escalated := Option.none } := by
  unfold exe
  have hc : ((ops.map (fun o => o.method)).contains req.method) = true := by
    simpa using hv
  rw [hc]
  simp only [if_true]
  exact dispatchLoop_no_match req ops initLS hnm

/-- C9 witness: a GET to a path matching neither operation of a handler
that declares GET and POST. -/
theorem c9_no_match_witness :
    (reqGetOther.method ∈ [thingGet, thingPost].map (fun op => op.method)) ∧
    (∀ op ∈ [thingGet, thingPost], matchesOp op reqGetOther = false) ∧
    exe [thingGet, thingPost] reqGetOther =
      { rs := initRS, invoked := [], escalated := Option.none } :=
  ⟨by decide, by decide,
   c9_no_match_silent_drop [thingGet, thingPost] reqGetOther (by decide) (by decide)⟩

theorem string_empty_append (s : String) : "" ++ s = s := rfl

theorem handleOne_ok (req : Request) (op : Operation) (ls0 : LoopState)
    (inv : List (String × List PValue)) (r : RetVal)
    (h : runOpCall req op = (inv, Except.ok r)) (hr : r ≠ RetVal.null) :
    handleOne req op ls0 =
      (match negotiate op r ls0.rs with
       | (rs, Option.none) => StepResult.cont { rs := rs, invoked := ls0.invoked ++ inv }
       | (rs, some e) => handleExc { rs := rs, invoked := ls0.invoked ++ inv } e) := by
  unfold handleOne
  rw [h]
  cases r with
  | null => exact absurd rfl hr
  | dict m => rfl
  | list l => rfl
  | xmlDoc x => rfl
  | other => rfl

theorem negotiate_json_dict (op : Operation) (m : List (String × JValue))
    (hp : op.produces = APPLICATION_JSON) :
    negotiate op (RetVal.dict m) initRS =
      ({ status := 200, headers := [("Content-Type", APPLICATION_JSON)],
         body := jsonOfDict m, finished := true }, Option.none) := by
  unfold negotiate
  rw [hp]
  simp [RetVal.isDict, writeFinish, rsWrite, rsFinish, rsSetHeader, setHeaderList, initRS,
    string_empty_append]

theorem negotiate_unsupported (op : Operation) (r : RetVal) (rs0 : ResponseState)
    (h : supportedCombo op.produces r = false) (hf : rs0.finished = false) :
    negotiate op r rs0 =
      (errorResponseState 500
        ("Internal Server Error : response is not " ++ op.produces ++ " document"),
       Option.none) := by
  unfold supportedCombo at h
  simp only [Bool.or_eq_false_iff] at h
  obtain ⟨⟨h1, h2⟩, h3⟩ := h
  unfold negotiate
  rw [h1, h2, h3]
  simp only [Bool.false_eq_true, if_false]
  apply gen_http_error_unfinished
  simpa [rsSetHeader] using hf

/-- C7: for a matched request, a handler-raised transport error
(`HTTPError st`) is translated into a finished response with exactly
status `st` and the generic error body, with nothing escalated; any
other exception during extraction, coercion or invocation is translated
into a finished 500 response with the generic body, and the failure is
then still escalated to the surrounding process — the response is
complete (`finished = true`) in the escalating outcome. -/
theorem c7_error_translation (op : Operation) (req : Request) :
    (∀ st : Nat, matchesOp op req = true →
      (runOpCall req op).snd = Except.error (PyExc.httpError st) →
      exe [op] req =
        { rs := errorResponseState st "HTTP Error",
          invoked := (runOpCall req op).fst, escalated := Option.none }) ∧
    (matchesOp op req = true →
      (runOpCall req op).snd = Except.error PyExc.other →
      exe [op] req =
        { rs := errorResponseState 500 "Internal Server Error",
          invoked := (runOpCall req op).fst, escalated := some PyExc.other } ∧
      (errorResponseState 500 "Internal Server Error").finished = true) := by
  constructor
  · intro st hm hr
    rw [exe_single_match op req hm]
    rcases hpair : runOpCall req op with ⟨inv, res⟩
    rw [hpair] at hr
    have hr2 : res = Except.error (PyExc.httpError st) := hr
    subst hr2
    rw [handleOne_error req op initLS inv _ hpair]
    rw [handleExc_http _ st rfl]
    simp [hpair, initLS]
  · intro hm hr
    refine ⟨?_, rfl⟩
    rw [exe_single_match op req hm]
    rcases hpair : runOpCall req op with ⟨inv, res⟩
    rw [hpair] at hr
    have hr2 : res = Except.error PyExc.other := hr
    subst hr2
    rw [handleOne_error req op initLS inv _ hpair]
    rw [handleExc_other _ rfl]
    simp [hpair, initLS]

/-- C8: for a matched operation producing `application/json` whose
handler returns a mapping, the response body is the mapping's JSON
serialization, the Content-Type header is `application/json`, and the
response is finished with status 200; when the non-null return value
fits no supported (producesType, shape) combination, the dispatcher
responds with the 500 internal error and escalates nothing to the
transport. -/
theorem c8_json_response (op : Operation) (req : Request) :
    (∀ m : List (String × JValue), op.produces = APPLICATION_JSON →
      matchesOp op req = true →
      (runOpCall req op).snd = Except.ok (RetVal.dict m) →
      exe [op] req =
        { rs := { status := 200, headers := [("Content-Type", APPLICATION_JSON)],
                  body := jsonOfDict m, finished := true },
          invoked := (runOpCall req op).fst, escalated := Option.none }) ∧
    (∀ r : RetVal, matchesOp op req = true →
      (runOpCall req op).snd = Except.ok r → r ≠ RetVal.null →
      supportedCombo op.produces r = false →
      exe [op] req =
        { rs := errorResponseState 500
            ("Internal Server Error : response is not " ++ op.produces ++ " document"),
          invoked := (runOpCall req op).fst, escalated := Option.none }) := by
  constructor
  · intro m hp hm hr
    rw [exe_single_match op req hm]
    rcases hpair : runOpCall req op with ⟨inv, res⟩
    rw [hpair] at hr
    have hr2 : res = Except.ok (RetVal.dict m) := hr
    subst hr2
    rw [handleOne_ok req op initLS inv _ hpair (by simp)]
    have hrs : initLS.rs = initRS := rfl
    rw [hrs, negotiate_json_dict op m hp]
    simp [hpair, initLS]
  · intro r hm hr hnull hsc
    rw [exe_single_match op req hm]
    rcases hpair : runOpCall req op with ⟨inv, res⟩
    rw [hpair] at hr
    have hr2 : res = Except.ok r := hr
    subst hr2
    rw [handleOne_ok req op initLS inv _ hpair hnull]
    rw [negotiate_unsupported op r initLS.rs hsc rfl]
    simp [hpair, initLS]

/-- C7 witness: a handler raising `HTTPError(404)` and a handler
raising a plain exception, each dispatched concretely. -/
theorem c7_witness :
    exe [errOp] reqE =
      { rs := errorResponseState 404 "HTTP Error",
        invoked := (runOpCall reqE errOp).fst, escalated := Option.none } ∧
    exe [excOp] reqX =
      { rs := errorResponseState 500 "Internal Server Error",
        invoked := (runOpCall reqX excOp).fst, escalated := some PyExc.other } :=
  ⟨(c7_error_translation errOp reqE).1 404 (by decide) rfl,
   ((c7_error_translation excOp reqX).2 (by decide) rfl).1⟩

/-- C8 witness: a JSON operation returning the mapping with key `id`
and value 1, and a JSON operation returning an XML document. -/
theorem c8_witness :
    exe [dictOp] reqD =
      { rs := { status := 200, headers := [("Content-Type", APPLICATION_JSON)],
                body := jsonOfDict [("id", JValue.jnum 1)], finished := true },
        invoked := (runOpCall reqD dictOp).fst, escalated := Option.none } ∧
    exe [mmOp] reqM =
      { rs := errorResponseState 500
          ("Internal Server Error : response is not " ++ mmOp.produces ++ " document"),
        invoked := (runOpCall reqM mmOp).fst, escalated := Option.none } :=
  ⟨(c8_json_response dictOp reqD).1 [("id", JValue.jnum 1)] rfl (by decide) rfl,
   (c8_json_response mmOp reqM).2 (RetVal.xmlDoc "<a/>") (by decide) rfl (by decide) (by decide)⟩

/-- C4: for every registration through the `config` decorator, a
missing produced media type defaults to `application/json`; the
construction fails (raises `PyRestfulException` at class-definition
time, before any request can be served) exactly when the resolved
produced media type is outside the three allowed values; and every
successfully registered operation carries an allowed media type, so no
media-type validation can fail at request time. -/

theorem c4_produces_validation (fname : String) (func_params : List String)
    (behavior : List PValue → Except PyExc RetVal) (method path : String)
    (consumesArg : Option String) (typesArg : Option (List (Option PType)))
    (co : Bool) :
    (∃ op, config fname func_params behavior method path Option.none consumesArg typesArg co
        = Except.ok op ∧ op.produces = APPLICATION_JSON) ∧
    (∀ producesArg : Option String,
      ((∃ e, config fname func_params behavior method path producesArg consumesArg typesArg co
          = Except.error e) ↔
        producesArg.getD APPLICATION_JSON ∉ [APPLICATION_JSON, APPLICATION_XML, TEXT_XML])) ∧
    (∀ (producesArg : Option String) (op : Operation),
      config fname func_params behavior method path producesArg consumesArg typesArg co
        = Except.ok op →
      op.produces ∈ [APPLICATION_JSON, APPLICATION_XML, TEXT_XML]) := by
  have hprod : ∀ producesArg : Option String,
      (buildOperation fname func_params behavior method path producesArg consumesArg
        typesArg co).produces = producesArg.getD APPLICATION_JSON := fun _ => rfl
  refine ⟨?_, ?_, ?_⟩
  · refine ⟨_, ?_, hprod Option.none⟩
    unfold config
    rw [if_pos]
    rw [hprod Option.none]
    decide
  · intro producesArg
    by_cases hmem :
        producesArg.getD APPLICATION_JSON ∈ [APPLICATION_JSON, APPLICATION_XML, TEXT_XML]
    · unfold config
      rw [if_pos (by rw [hprod producesArg]; exact hmem)]
      simp [hmem]
    · unfold config
      rw [if_neg (by rw [hprod producesArg]; exact hmem)]
      simp [hmem]
  · intro producesArg op hok
    unfold config at hok
    by_cases hmem :
        (buildOperation fname func_params behavior method path producesArg consumesArg
          typesArg co).produces ∈ [APPLICATION_JSON, APPLICATION_XML, TEXT_XML]
    · rw [if_pos hmem] at hok
      cases hok
      exact hmem
    · rw [if_neg hmem] at hok
      cases hok

/-- C4 witness: a registration with no produced media type, one with an
unsupported type, and one with `application/xml`. -/
theorem c4_witness :
    (∃ op, config "f" [] bNull "GET" "/p" Option.none Option.none Option.none false
        = Except.ok op ∧ op.produces = APPLICATION_JSON) ∧
    ((∃ e, config "f" [] bNull "GET" "/p" (some "text/plain") Option.none Option.none false
        = Except.error e) ↔
      (some "text/plain").getD APPLICATION_JSON ∉
        [APPLICATION_JSON, APPLICATION_XML, TEXT_XML]) ∧
    (buildOperation "f" [] bNull "GET" "/p" (some APPLICATION_XML) Option.none Option.none
        false).produces ∈ [APPLICATION_JSON, APPLICATION_XML, TEXT_XML] :=
  ⟨(c4_produces_validation "f" [] bNull "GET" "/p" Option.none Option.none false).1,
   (c4_produces_validation "f" [] bNull "GET" "/p" Option.none Option.none false).2.1
     (some "text/plain"),
   (c4_produces_validation "f" [] bNull "GET" "/p" Option.none Option.none false).2.2
     (some APPLICATION_XML) _ rfl⟩
